import Mathlib

/-!
Shallow embedding of the core algorithms of the nox-x-trading-system
repository (files `app/signal_logic.py`, `app/ai_model.py`,
`app/indicators.py`), over exact rational arithmetic.  Python floats are
modelled as `ℚ`; Python `dict`s/`DataFrame`s are modelled as structures and
lists; fallible code is modelled in `Except`.  Fields that carry only
wall-clock or logging data (`timestamp`, `metadata`) are omitted from the
records, since no algorithmic decision reads them.
-/

namespace NoxX

/-! ### signal_logic.py : SignalGenerator -/

/-- The signal categories produced by `SignalGenerator._determine_signal_type`. -/
inductive SignalType where
  | NEUTRAL
  | BUY
  | SELL
  | STRONG_BUY
  | STRONG_SELL
deriving DecidableEq, Repr

/-- `self.min_confidence = 0.7` in `SignalGenerator.__init__`. -/
def min_confidence : ℚ := 7/10

/-- `self.risk_reward_ratio = 2.0` in `SignalGenerator.__init__`. -/
def risk_reward_ratio : ℚ := 2

/-- `SignalGenerator._determine_signal_type` (signal_logic.py lines 208-221).
No statement in the body can raise, so the `except` branch is dead. -/
def determineSignalType (overall_score : ℚ) : SignalType :=
  if overall_score < min_confidence then .NEUTRAL
  else if overall_score > 8/10 then
    (if overall_score > 0 then .STRONG_BUY else .STRONG_SELL)
  else
    (if overall_score > 0 then .BUY else .SELL)

/-- The AI prediction record consumed by `_evaluate_ai_signal`
(the shape produced by `AIModel.predict`). -/
structure AIPrediction where
  confidence : ℚ
  probBuy : ℚ
  probSell : ℚ
  probHold : ℚ
deriving DecidableEq, Repr

/-- `SignalGenerator._evaluate_ai_signal` (signal_logic.py lines 72-86).
The record always carries the accessed keys, so the `except` branch is dead. -/
def evaluateAiSignal (p : AIPrediction) : ℚ :=
  let s := p.confidence
  let s := if p.probBuy > 7/10 ∨ p.probSell > 7/10 then s * (12/10) else s
  min s 1

/-- A pandas DataFrame as used by the signal generator: a set of column
names together with the rows; a row is read by column name
(`latest['rsi']` becomes `latest "rsi"`).  Values of columns not present
in `columns` are never read by the embedded code paths. -/
structure Frame where
  columns : List String
  rows : List (String → ℚ)

/-- `SignalGenerator._evaluate_trend` (signal_logic.py lines 88-115).
`df.iloc[-1]` on an empty frame raises, the handler returns `0.0`. -/
def evaluateTrend (df : Frame) : ℚ :=
  match df.rows.getLast? with
  | none => 0
  | some latest =>
    let t : ℚ :=
      if "sma_20" ∈ df.columns ∧ "sma_50" ∈ df.columns then
        (if latest "sma_20" > latest "sma_50" then 3/10
         else if latest "sma_20" < latest "sma_50" then -(3/10) else 0)
      else 0
    let t :=
      if "adx" ∈ df.columns then
        (if latest "adx" > 25 then t * (3/2)
         else if latest "adx" < 20 then t * (1/2) else t)
      else t
    max (min |t| 1) 0

/-- `SignalGenerator._evaluate_momentum` (signal_logic.py lines 117-149). -/
def evaluateMomentum (df : Frame) : ℚ :=
  match df.rows.getLast? with
  | none => 0
  | some latest =>
    let m : ℚ :=
      if "rsi" ∈ df.columns then
        (if latest "rsi" > 70 then -(3/10)
         else if latest "rsi" < 30 then 3/10 else 0)
      else 0
    let m :=
      if "macd_line" ∈ df.columns ∧ "macd_signal" ∈ df.columns then
        (if latest "macd_line" > latest "macd_signal" then m + 3/10 else m - 3/10)
      else m
    let m :=
      if "stoch_k" ∈ df.columns ∧ "stoch_d" ∈ df.columns then
        (if latest "stoch_k" > latest "stoch_d" then m + 2/10 else m - 2/10)
      else m
    max (min |m| 1) 0

/-- The support/resistance dictionary `{'support': [...], 'resistance': [...]}`. -/
structure SRLevels where
  support : List ℚ
  resistance : List ℚ
deriving DecidableEq, Repr

/-- `SignalGenerator._evaluate_support_resistance` (signal_logic.py lines
151-187).  `max([...], default=None)` / `min([...], default=None)` become
`List.max?` / `List.min?`; Python float truthiness makes a nearest level of
`0.0` behave like `None`.  When `current_price = 0` every path either does
no division (score stays `0`) or raises `ZeroDivisionError` which the
handler maps to `0.0`, so that case is folded to `0`. -/
def evaluateSupportResistance (current_price : ℚ) (sr : SRLevels) : ℚ :=
  if sr.support = [] ∧ sr.resistance = [] then 0
  else if current_price = 0 then 0
  else
    let nearest_support := (sr.support.filter (fun s => s < current_price)).max?
    let nearest_resistance := (sr.resistance.filter (fun r => r > current_price)).min?
    let s1 : ℚ :=
      match nearest_support with
      | some s =>
        if s ≠ 0 then
          (let prox := (current_price - s) / current_price
           if prox < 1/100 then 5/10 else if prox < 2/100 then 3/10 else 0)
        else 0
      | none => 0
    let s2 : ℚ :=
      match nearest_resistance with
      | some r =>
        if r ≠ 0 then
          (let prox := (r - current_price) / current_price
           if prox < 1/100 then -(5/10) else if prox < 2/100 then -(3/10) else 0)
        else 0
      | none => 0
    max (min |s1 + s2| 1) 0

/-- `SignalGenerator._calculate_overall_score` (signal_logic.py lines
189-206), with the fixed weights `{ai: 0.4, trend: 0.25, momentum: 0.2,
support_resistance: 0.15}`. -/
def calculateOverallScore (ai trend momentum sr : ℚ) : ℚ :=
  max (min (ai * (4/10) + trend * (25/100) + momentum * (2/10) + sr * (15/100)) 1) 0

/-- The dictionary returned by `SignalGenerator._calculate_trade_levels`. -/
structure Levels where
  entry : ℚ
  stop_loss : Option ℚ
  take_profit : Option ℚ
  rr : ℚ
deriving DecidableEq, Repr

/-- `atr = latest.get('atr', current_price * 0.001)` in
`_calculate_trade_levels` (for a nonempty frame). -/
def atrOf (df : Frame) (current_price : ℚ) : ℚ :=
  match df.rows.getLast? with
  | some latest => if "atr" ∈ df.columns then latest "atr" else current_price * (1/1000)
  | none => current_price * (1/1000)

/-- `SignalGenerator._calculate_trade_levels` (signal_logic.py lines
223-271).  `technical_data.iloc[-1]` on an empty frame raises, and the
handler returns the defaults.  Python truthiness: `if nearby_support:` and
`if stop_loss:` treat both `None` and `0.0` as absent. -/
def calcTradeLevels (signal_type : SignalType) (current_price : ℚ)
    (df : Frame) (sr : SRLevels) : Levels :=
  match df.rows.getLast? with
  | none => ⟨current_price, none, none, risk_reward_ratio⟩
  | some _ =>
    let atr := atrOf df current_price
    let entry := current_price
    let stop_loss : Option ℚ :=
      if signal_type = .BUY ∨ signal_type = .STRONG_BUY then
        (match (sr.support.filter (fun s => s < current_price)).max? with
         | some s => if s ≠ 0 then some s else some (current_price - 2 * atr)
         | none => some (current_price - 2 * atr))
      else if signal_type = .SELL ∨ signal_type = .STRONG_SELL then
        (match (sr.resistance.filter (fun r => r > current_price)).min? with
         | some r => if r ≠ 0 then some r else some (current_price + 2 * atr)
         | none => some (current_price + 2 * atr))
      else none
    let take_profit : Option ℚ :=
      if signal_type = .BUY ∨ signal_type = .STRONG_BUY then
        stop_loss.map (fun s => current_price + (current_price - s) * risk_reward_ratio)
      else if signal_type = .SELL ∨ signal_type = .STRONG_SELL then
        stop_loss.map (fun s => current_price - (s - current_price) * risk_reward_ratio)
      else none
    let risk : ℚ :=
      match stop_loss with
      | some s => if s ≠ 0 then |entry - s| else atr
      | none => atr
    let reward : ℚ :=
      match take_profit with
      | some t => if t ≠ 0 then |entry - t| else risk * risk_reward_ratio
      | none => risk * risk_reward_ratio
    ⟨entry, stop_loss, take_profit,
      if risk > 0 then reward / risk else risk_reward_ratio⟩

/-- The signal record returned by `SignalGenerator.generate_signal`
(timestamp and metadata omitted; the per-factor metric breakdown kept). -/
structure SignalRecord where
  signal_type : SignalType
  confidence : ℚ
  entry_price : Option ℚ
  stop_loss : Option ℚ
  take_profit : Option ℚ
  rr : Option ℚ
  ai_score : ℚ
  trend_score : ℚ
  momentum_score : ℚ
  support_resistance_score : ℚ
deriving DecidableEq, Repr

/-- `SignalGenerator._create_neutral_signal` (signal_logic.py lines 324-341). -/
def neutralSignal : SignalRecord :=
  ⟨.NEUTRAL, 0, none, none, none, none, 0, 0, 0, 0⟩

/-- `SignalGenerator.generate_signal` (signal_logic.py lines 15-70);
the current price is `price_data['close']`. -/
def generateSignal (ai_prediction : AIPrediction) (technical_data : Frame)
    (current_price : ℚ) (support_resistance : SRLevels) : SignalRecord :=
  let ai_score := evaluateAiSignal ai_prediction
  let trend_score := evaluateTrend technical_data
  let momentum_score := evaluateMomentum technical_data
  let sr_score := evaluateSupportResistance current_price support_resistance
  let overall_score := calculateOverallScore ai_score trend_score momentum_score sr_score
  let signal_type := determineSignalType overall_score
  if signal_type = .NEUTRAL then neutralSignal
  else
    let levels := calcTradeLevels signal_type current_price technical_data support_resistance
    ⟨signal_type, overall_score, some levels.entry, levels.stop_loss,
      levels.take_profit, some levels.rr,
      ai_score, trend_score, momentum_score, sr_score⟩

/-! ### ai_model.py : AIModel.prepare_data and AIModel.predict -/

/-- The column-wise min-max affine map applied by a fitted sklearn
`MinMaxScaler` on a row-major matrix with at least one row: each column is
mapped by its min/max over the fitted data, a zero-range column getting
scale 1 (sklearn's `_handle_zeros_in_scale`).  The row count is preserved,
which is the only fact `prepare_data`'s shape depends on. -/
def minMaxTransform (m : List (List ℚ)) : List (List ℚ) :=
  m.map (fun r => r.mapIdx (fun j x =>
    let c := m.map (fun row => row.getD j 0)
    let mn := c.min?.getD 0
    let mx := c.max?.getD 0
    (x - mn) / (if mx - mn = 0 then 1 else mx - mn)))

/-- sklearn `MinMaxScaler().fit_transform`: on a zero-sample array it
raises `ValueError` (`check_array` with `ensure_min_samples=1`), modelled
as the error case; otherwise it applies the column-wise min-max map. -/
def minMaxScale (m : List (List ℚ)) : Except String (List (List ℚ)) :=
  if m = [] then Except.error "Found array with 0 sample(s)"
  else Except.ok (minMaxTransform m)

/-- pandas `series.iloc[k]`, including Python's negative-index wrap-around
(`iloc[-m]` reads element `len − m`). -/
def ilocQ (xs : List ℚ) (k : ℤ) : ℚ :=
  if k < 0 then xs.getD (xs.length - (-k).toNat) 0 else xs.getD k.toNat 0

/-- The labelling branch of `AIModel.prepare_data` (ai_model.py lines
85-90): one-hot over [BUY, SELL, HOLD] from next close vs current close. -/
def makeTarget (next_close current_close : ℚ) : List ℚ :=
  if next_close > current_close * (1001/1000) then [1, 0, 0]
  else if next_close < current_close * (999/1000) then [0, 1, 0]
  else [0, 0, 1]

/-- The `close` column of a frame. -/
def closesOf (f : Frame) : List ℚ := f.rows.map (fun r => r "close")

/-- `AIModel.prepare_data` (ai_model.py lines 64-98): check the required
feature columns, min-max scale the feature matrix, then slide a window of
`sequence_length` rows, labelling window `i` by comparing
`close.iloc[i + sequence_length]` against
`close.iloc[i + sequence_length - 1]`. -/
def prepareData (feature_columns : List String) (sequence_length : ℕ)
    (f : Frame) : Except String (List (List (List ℚ)) × List (List ℚ)) :=
  if feature_columns.all (fun c => c ∈ f.columns) then do
    let scaled ← minMaxScale (f.rows.map (fun r => feature_columns.map r))
    let closes := closesOf f
    Except.ok
      ((List.range (scaled.length - sequence_length)).map
        (fun i => (scaled.drop i).take sequence_length),
       (List.range (scaled.length - sequence_length)).map
        (fun (i : ℕ) => makeTarget (ilocQ closes (i + (sequence_length : ℤ)))
          (ilocQ closes (i + (sequence_length : ℤ) - 1))))
  else Except.error "Missing features"

/-- The labels component of a `prepare_data` result. -/
def labelsOf (r : Except String (List (List (List ℚ)) × List (List ℚ))) :
    List (List ℚ) :=
  match r with
  | .ok p => p.2
  | .error _ => []

/-- The label of window `i` produced by data preparation. -/
def labelAt (feature_columns : List String) (sequence_length : ℕ)
    (f : Frame) (i : ℕ) : List ℚ :=
  (labelsOf (prepareData feature_columns sequence_length f)).getD i []

/-- The prediction record emitted by `AIModel.predict`
(timestamp omitted). -/
structure PredRecord where
  signal : String
  confidence : ℚ
  probBuy : ℚ
  probSell : ℚ
  probHold : ℚ
deriving DecidableEq, Repr

/-- The fallback record of `AIModel.predict`'s exception handler:
`{'signal': 'HOLD', 'confidence': 0.0, 'probabilities': {'buy': 0.0,
'sell': 0.0, 'hold': 1.0}}`. -/
def safeNeutral : PredRecord := ⟨"HOLD", 0, 0, 0, 1⟩

/-- `np.argmax` on the 3-vector: first index attaining the maximum. -/
def argmax3 (a b c : ℚ) : ℕ :=
  if b > a then (if c > b then 2 else 1) else (if c > a then 2 else 0)

/-- The try-block of `AIModel.predict` (ai_model.py lines 140-168):
prepare the data, raise when no window exists, run the network on the last
window and convert the class distribution into a signal record.  The LSTM
itself is external TensorFlow state; it enters the embedding as the
function `net` from the last window to the (buy, sell, hold)
distribution. -/
def predictCore (net : List (List ℚ) → ℚ × ℚ × ℚ)
    (feature_columns : List String) (sequence_length : ℕ) (f : Frame) :
    Except String PredRecord := do
  let Xy ← prepareData feature_columns sequence_length f
  match Xy.1.getLast? with
  | none => Except.error "Insufficient data for prediction"
  | some lastSeq =>
    let p := net lastSeq
    let conf := max p.1 (max p.2.1 p.2.2)
    let idx := argmax3 p.1 p.2.1 p.2.2
    let signal := if idx = 0 then "BUY" else if idx = 1 then "SELL" else "HOLD"
    Except.ok ⟨signal, conf, p.1, p.2.1, p.2.2⟩

/-- `AIModel.predict` (ai_model.py lines 138-177): the whole body runs
under `try/except Exception`, so any internal failure is converted into
the safe neutral record instead of propagating. -/
def predict (net : List (List ℚ) → ℚ × ℚ × ℚ)
    (feature_columns : List String) (sequence_length : ℕ) (f : Frame) :
    PredRecord :=
  match predictCore net feature_columns sequence_length f with
  | .ok r => r
  | .error _ => safeNeutral

/-! ### ai_model.py : AIModel.load_specific_version -/

/-- The model files present on disk under `app/models/`: the integer
versions `v` for which `lstm_model_v{v}.h5` respectively `scaler_v{v}.npy`
exist. -/
structure ModelFS where
  modelFiles : List ℕ
  scalerFiles : List ℕ
deriving DecidableEq, Repr

/-- The in-memory mutable state of `AIModel` touched by
`load_specific_version`: `self.model`, `self.scaler.scale_`,
`self.model_version`.  The loaded artifacts are abstracted by their
version number: loading `lstm_model_v{v}.h5` yields weights handle `v`,
loading `scaler_v{v}.npy` yields scaler handle `v`. -/
structure ModelState where
  model : ℕ
  scale : ℕ
  version : ℕ
deriving DecidableEq, Repr

/-- `AIModel.load_specific_version` (ai_model.py lines 196-213) as a state
transformer: the first component is the outcome (the `except` clause
re-raises, so an error propagates to the caller), the second is the
in-memory state *after* the call.  The source mutates `self.model` before
loading the scaler file, so when the model file exists but the scaler file
does not, `np.load` raises after `self.model` has already been replaced. -/
def loadSpecificVersion (fs : ModelFS) (version : ℕ) (st : ModelState) :
    Except String Unit × ModelState :=
  if version ∈ fs.modelFiles then
    let st1 := { st with model := version }
    if version ∈ fs.scalerFiles then
      (Except.ok (), { model := version, scale := version, version := version })
    else
      (Except.error "scaler file not found", st1)
  else
    (Except.error ("Model version " ++ toString version ++ " not found"), st)

/-! ### indicators.py : TechnicalIndicators.detect_support_resistance -/

/-- One OHLC bar, restricted to the columns `detect_support_resistance`
reads (`high`, `low`, `close`). -/
structure Bar where
  high : ℚ
  low : ℚ
  close : ℚ
deriving DecidableEq, Repr

/-- pandas `series.rolling(window=w, center=True)` labels each length-`w`
window at its centre: the value at index `i` aggregates indices
`[i − w/2, i + (w−1)/2]`.  This returns that slice of the list. -/
def centeredSlice (w i : ℕ) (xs : List ℚ) : List ℚ :=
  (xs.drop (i - w / 2)).take (i + (w - 1) / 2 + 1 - (i - w / 2))

/-- The touch-counting loop of `detect_support_resistance`: the number of
`j` in `[lo, hi)` with `abs(xs[j] − level) ≤ level × 0.002`. -/
def touchCount (xs : List ℚ) (level : ℚ) (lo hi : ℕ) : ℕ :=
  ((List.range' lo (hi - lo)).filter
    (fun j => |xs.getD j 0 - level| ≤ level * (2/1000))).length

/-- The candidate-collection loop of `detect_support_resistance`
(indicators.py lines 193-225): for each `i` in `range(window, len(df) −
window)`, the bar's high is kept as a level if it equals the centered
rolling max and has at least `num_touches` touches within 0.2%, and
likewise the bar's low against the centered rolling min. -/
def detectLevels (w t : ℕ) (bars : List Bar) : List ℚ :=
  let n := bars.length
  let highs := bars.map (fun b => b.high)
  let lows := bars.map (fun b => b.low)
  (List.range' w (n - w - w)).foldl
    (fun levels i =>
      let levels :=
        if (centeredSlice w i highs).max? = some (highs.getD i 0) ∧
            t ≤ touchCount highs (highs.getD i 0) (i - w) (min n (i + w)) then
          levels ++ [highs.getD i 0]
        else levels
      if (centeredSlice w i lows).min? = some (lows.getD i 0) ∧
          t ≤ touchCount lows (lows.getD i 0) (i - w) (min n (i + w)) then
        levels ++ [lows.getD i 0]
      else levels)
    []

/-- Insertion into a strictly sorted list, skipping duplicates. -/
def insertLevel (x : ℚ) : List ℚ → List ℚ
  | [] => [x]
  | y :: ys =>
    if x < y then x :: y :: ys
    else if x = y then y :: ys
    else y :: insertLevel x ys

/-- `sorted(list(set(levels)))`: the strictly increasing enumeration of
the collected level set. -/
def sortedDedup (xs : List ℚ) : List ℚ := xs.foldr insertLevel []

/-- `TechnicalIndicators.detect_support_resistance` (indicators.py lines
188-242).  `df['close'].iloc[-1]` on an empty frame raises and the handler
returns `{'support': [], 'resistance': []}`. -/
def detectSupportResistance (w t : ℕ) (bars : List Bar) : SRLevels :=
  match (bars.map (fun b => b.close)).getLast? with
  | none => ⟨[], []⟩
  | some current_price =>
    let levels := sortedDedup (detectLevels w t bars)
    ⟨levels.filter (fun l => l < current_price),
     levels.filter (fun l => l > current_price)⟩

/-- The most recent close of the series (0 for an empty series, in which
case `detect_support_resistance` returns empty level lists anyway). -/
def lastClose (bars : List Bar) : ℚ := (bars.map (fun b => b.close)).getLastD 0

/-! ## Helper lemmas -/

theorem minMaxTransform_length (m : List (List ℚ)) :
    (minMaxTransform m).length = m.length := by
  simp [minMaxTransform]

theorem ilocQ_natCast (xs : List ℚ) (k : ℕ) : ilocQ xs (k : ℤ) = xs.getD k 0 := by
  simp [ilocQ]

theorem makeTarget_cases (a b : ℚ) :
    makeTarget a b = [1, 0, 0] ∨ makeTarget a b = [0, 1, 0] ∨
    makeTarget a b = [0, 0, 1] := by
  unfold makeTarget
  split_ifs <;> simp

theorem prepareData_empty (feature_columns : List String)
    (sequence_length : ℕ) (f : Frame)
    (hA : feature_columns.all (fun c => c ∈ f.columns) = true)
    (hnil : f.rows = []) :
    prepareData feature_columns sequence_length f =
      .error "Found array with 0 sample(s)" := by
  simp only [prepareData, hA, minMaxScale, hnil]
  rfl

theorem prepareData_eq_of_all (feature_columns : List String)
    (sequence_length : ℕ) (f : Frame)
    (hA : feature_columns.all (fun c => c ∈ f.columns) = true)
    (hne : f.rows ≠ []) :
    prepareData feature_columns sequence_length f =
      .ok ((List.range (f.rows.length - sequence_length)).map
            (fun i => ((minMaxTransform
              (f.rows.map (fun r => feature_columns.map r))).drop i).take
                sequence_length),
           (List.range (f.rows.length - sequence_length)).map
            (fun (i : ℕ) => makeTarget
              (ilocQ (closesOf f) (i + (sequence_length : ℤ)))
              (ilocQ (closesOf f) (i + (sequence_length : ℤ) - 1)))) := by
  have hm : f.rows.map (fun r => feature_columns.map r) ≠ [] := by
    simpa using hne
  simp only [prepareData, hA, minMaxScale, hm, if_false]
  rw [if_pos trivial]
  show Except.ok _ = _
  rw [minMaxTransform_length, List.length_map]

theorem prepareData_short (feature_columns : List String)
    (sequence_length : ℕ) (f : Frame)
    (hA : feature_columns.all (fun c => c ∈ f.columns) = true)
    (hne : f.rows ≠ [])
    (hshort : f.rows.length < sequence_length + 1) :
    prepareData feature_columns sequence_length f = .ok ([], []) := by
  have h0 : f.rows.length - sequence_length = 0 :=
    Nat.sub_eq_zero_of_le (Nat.lt_succ_iff.mp hshort)
  rw [prepareData_eq_of_all feature_columns sequence_length f hA hne, h0]
  simp

theorem labelAt_eq (feature_columns : List String) (sequence_length : ℕ)
    (f : Frame) (i : ℕ)
    (hA : feature_columns.all (fun c => c ∈ f.columns) = true)
    (hi : i < f.rows.length - sequence_length) :
    labelAt feature_columns sequence_length f i =
      makeTarget (ilocQ (closesOf f) (i + (sequence_length : ℤ)))
        (ilocQ (closesOf f) (i + (sequence_length : ℤ) - 1)) := by
  have hne : f.rows ≠ [] := by
    intro hnil
    rw [hnil] at hi
    simp at hi
  rw [labelAt, prepareData_eq_of_all feature_columns sequence_length f hA hne]
  simp only [labelsOf]
  rw [List.getD_eq_getElem?_getD, List.getElem?_map, List.getElem?_range hi]
  simp

/-- `ilocQ` at nonnegative indices is plain list indexing. -/
theorem ilocQ_index (closes : List ℚ) (i L : ℕ) (hL : 1 ≤ L) :
    ilocQ closes ((i : ℤ) + L) = closes.getD (i + L) 0 ∧
    ilocQ closes ((i : ℤ) + L - 1) = closes.getD (i + L - 1) 0 := by
  constructor
  · have h : ((i : ℤ) + L) = ((i + L : ℕ) : ℤ) := by push_cast; ring
    rw [h, ilocQ_natCast]
  · have h : ((i : ℤ) + L - 1) = ((i + L - 1 : ℕ) : ℤ) := by omega
    rw [h, ilocQ_natCast]

theorem makeTarget_spec (a b : ℚ) :
    (makeTarget a b = [1, 0, 0] ↔ a > b * (1001/1000)) ∧
    (makeTarget a b = [0, 1, 0] ↔
      (a < b * (999/1000) ∧ ¬(a > b * (1001/1000)))) ∧
    (makeTarget a b = [0, 0, 1] ↔
      (¬(a > b * (1001/1000)) ∧ ¬(a < b * (999/1000)))) := by
  unfold makeTarget
  split_ifs with h1 h2 <;> refine ⟨?_, ?_, ?_⟩ <;> simp_all

theorem mem_insertLevel {x z : ℚ} {l : List ℚ} (h : z ∈ insertLevel x l) :
    z = x ∨ z ∈ l := by
  induction l with
  | nil => simpa [insertLevel] using h
  | cons y ys ih =>
    simp only [insertLevel] at h
    split_ifs at h with h1 h2
    · simpa using h
    · right
      exact h
    · rcases List.mem_cons.mp h with rfl | h'
      · right
        exact List.mem_cons_self _ _
      · rcases ih h' with rfl | h''
        · left
          rfl
        · right
          exact List.mem_cons_of_mem _ h''

theorem insertLevel_sorted (x : ℚ) {l : List ℚ} (h : l.Sorted (· < ·)) :
    (insertLevel x l).Sorted (· < ·) := by
  induction l with
  | nil => simp [insertLevel]
  | cons y ys ih =>
    rw [List.sorted_cons] at h
    obtain ⟨hy, hys⟩ := h
    simp only [insertLevel]
    split_ifs with h1 h2
    · rw [List.sorted_cons]
      refine ⟨?_, List.sorted_cons.mpr ⟨hy, hys⟩⟩
      intro b hb
      rcases List.mem_cons.mp hb with rfl | hb'
      · exact h1
      · exact h1.trans (hy b hb')
    · subst h2
      exact List.sorted_cons.mpr ⟨hy, hys⟩
    · rw [List.sorted_cons]
      refine ⟨?_, ih hys⟩
      intro b hb
      rcases mem_insertLevel hb with rfl | hb'
      · exact lt_of_le_of_ne (not_lt.mp h1) (Ne.symm h2)
      · exact hy b hb'

theorem sortedDedup_sorted (xs : List ℚ) : (sortedDedup xs).Sorted (· < ·) := by
  induction xs with
  | nil => simp [sortedDedup]
  | cons x xs ih => exact insertLevel_sorted x ih

/-! ## Claims about the fusion engine (signal_logic.py) -/

/-- C1: For every overall_score, `_determine_signal_type` returns only
NEUTRAL, BUY, or STRONG_BUY; it never returns SELL or STRONG_SELL, because
both sell branches test `overall_score > 0`, which holds for every score
that passes the 0.7 confidence gate. -/
theorem determineSignalType_never_sell (overall_score : ℚ) :
    determineSignalType overall_score = .NEUTRAL ∨
    determineSignalType overall_score = .BUY ∨
    determineSignalType overall_score = .STRONG_BUY := by
  unfold determineSignalType min_confidence
  split_ifs with h1 h2 h3 h4 <;> simp_all <;> linarith

/-- C2: the classification is NEUTRAL exactly when `overall_score < 0.7`
(`min_confidence`); and whenever the classification for a fusion cycle is
NEUTRAL, `generate_signal` emits the neutral signal record (no entry,
stop-loss or take-profit computed). -/
theorem neutral_iff_below_min_confidence (s : ℚ) (ai : AIPrediction)
    (tech : Frame) (price : ℚ) (sr : SRLevels) :
    (determineSignalType s = .NEUTRAL ↔ s < 7/10) ∧
    (determineSignalType
        (calculateOverallScore (evaluateAiSignal ai) (evaluateTrend tech)
          (evaluateMomentum tech) (evaluateSupportResistance price sr)) = .NEUTRAL →
      generateSignal ai tech price sr = neutralSignal) := by
  constructor
  · unfold determineSignalType min_confidence
    split_ifs with h1 h2 h3 h4 <;> simp_all
  · intro h
    simp only [generateSignal]
    rw [if_pos h]

/-- C2 witness: a score of exactly 0.7 is classified non-NEUTRAL, a score
of 0.699999 is classified NEUTRAL, and a concrete all-zero-evidence cycle
emits the neutral record. -/
theorem neutral_iff_below_min_confidence_witness :
    determineSignalType (7/10) ≠ .NEUTRAL ∧
    determineSignalType (699999/1000000) = .NEUTRAL ∧
    generateSignal ⟨0, 0, 0, 1⟩ ⟨[], []⟩ 1 ⟨[], []⟩ = neutralSignal := by
  refine ⟨fun hc => ?_, ?_, ?_⟩
  · have h := (neutral_iff_below_min_confidence (7/10) ⟨0, 0, 0, 1⟩ ⟨[], []⟩ 1 ⟨[], []⟩).1.mp hc
    norm_num at h
  · exact (neutral_iff_below_min_confidence (699999/1000000) ⟨0, 0, 0, 1⟩ ⟨[], []⟩ 1
      ⟨[], []⟩).1.mpr (by norm_num)
  · exact (neutral_iff_below_min_confidence 0 ⟨0, 0, 0, 1⟩ ⟨[], []⟩ 1 ⟨[], []⟩).2
      (by norm_num [determineSignalType, min_confidence, calculateOverallScore,
        evaluateAiSignal, evaluateTrend, evaluateMomentum, evaluateSupportResistance])

/-- C9: with the other three sub-scores held fixed, the clamped weighted
fusion score is monotonically non-decreasing in `ai_score` (its weight
0.40 is non-negative). -/
theorem overallScore_monotone_in_ai (ai ai' trend momentum sr : ℚ)
    (h : ai ≤ ai') :
    calculateOverallScore ai trend momentum sr ≤
      calculateOverallScore ai' trend momentum sr := by
  unfold calculateOverallScore
  exact max_le_max (min_le_min (by linarith) le_rfl) le_rfl

/-- C9 witness: the monotonicity theorem applied at `ai = 0 ≤ ai' = 1`
with the other sub-scores at 1/2. -/
theorem overallScore_monotone_in_ai_witness :
    calculateOverallScore 0 (1/2) (1/2) (1/2) ≤
      calculateOverallScore 1 (1/2) (1/2) (1/2) :=
  overallScore_monotone_in_ai 0 1 (1/2) (1/2) (1/2) (by norm_num)

/-- C10: an AI prediction {HOLD, confidence 0.9, probabilities
{buy 0.05, sell 0.05, hold 0.9}} with flat trend, momentum and
support/resistance evidence scores 0.9 for the AI factor (no ×1.2 boost,
since neither directional probability exceeds 0.7), fuses to
`overall_score = 0.36 < 0.7`, and the cycle is classified NEUTRAL. -/
theorem flat_hold_prediction_is_neutral :
    evaluateAiSignal ⟨9/10, 5/100, 5/100, 9/10⟩ = 9/10 ∧
    evaluateTrend ⟨[], [fun _ => 0]⟩ = 0 ∧
    evaluateMomentum ⟨[], [fun _ => 0]⟩ = 0 ∧
    evaluateSupportResistance 1 ⟨[], []⟩ = 0 ∧
    calculateOverallScore (9/10) 0 0 0 = 9/25 ∧
    determineSignalType (9/25) = .NEUTRAL ∧
    generateSignal ⟨9/10, 5/100, 5/100, 9/10⟩ ⟨[], [fun _ => 0]⟩ 1 ⟨[], []⟩ =
      neutralSignal := by
  have h1 : evaluateAiSignal ⟨9/10, 5/100, 5/100, 9/10⟩ = 9/10 := by
    norm_num [evaluateAiSignal]
  have h2 : evaluateTrend ⟨[], [fun _ => 0]⟩ = 0 := by simp [evaluateTrend]
  have h3 : evaluateMomentum ⟨[], [fun _ => 0]⟩ = 0 := by simp [evaluateMomentum]
  have h4 : evaluateSupportResistance 1 ⟨[], []⟩ = 0 := by
    simp [evaluateSupportResistance]
  have h5 : calculateOverallScore (9/10) 0 0 0 = 9/25 := by
    norm_num [calculateOverallScore]
  have h6 : determineSignalType (9/25) = .NEUTRAL := by
    norm_num [determineSignalType, min_confidence]
  refine ⟨h1, h2, h3, h4, h5, h6, ?_⟩
  simp [generateSignal, h1, h2, h3, h4, h5, h6]

/-- C7 counterexample: with support levels `[0.0]` and current price 1,
a support level strictly below the current price exists (namely `0.0`,
the nearest one), but because Python's `if nearby_support:` treats `0.0`
as falsy, `_calculate_trade_levels` ignores it and uses the ATR fallback
`current_price − 2×ATR = 1 − 2×0.1 = 0.8` as the stop-loss instead. -/
theorem tradeLevels_zero_support_counterexample :
    ((SRLevels.mk [0] []).support.filter (fun s => s < (1 : ℚ))).max? = some 0 ∧
    (calcTradeLevels .BUY 1 ⟨["atr"], [fun _ => 1/10]⟩ ⟨[0], []⟩).stop_loss =
      some (4/5) ∧
    some ((4:ℚ)/5) ≠ some (0 : ℚ) := by
  refine ⟨by decide, ?_, by norm_num⟩
  norm_num [calcTradeLevels, atrOf, risk_reward_ratio]

/-- C7 (amended): for a long-biased (BUY or STRONG_BUY) signal computed on
a nonempty technical frame, the entry is the current price; the stop-loss
is the nearest support strictly below the current price whenever that
nearest support exists *and is nonzero* (a nearest support of exactly 0 is
falsy in Python and falls through to the fallback), and `current_price −
2×ATR` otherwise; and the take-profit is
`entry + (entry − stop_loss) × 2.0`. -/
theorem tradeLevels_long (ty : SignalType) (price : ℚ) (df : Frame)
    (sr : SRLevels) (hty : ty = .BUY ∨ ty = .STRONG_BUY) (hdf : df.rows ≠ []) :
    (calcTradeLevels ty price df sr).entry = price ∧
    (∀ s, (sr.support.filter (fun x => x < price)).max? = some s → s ≠ 0 →
      (calcTradeLevels ty price df sr).stop_loss = some s) ∧
    (((sr.support.filter (fun x => x < price)).max? = none ∨
        (sr.support.filter (fun x => x < price)).max? = some 0) →
      (calcTradeLevels ty price df sr).stop_loss =
        some (price - 2 * atrOf df price)) ∧
    (∀ s, (calcTradeLevels ty price df sr).stop_loss = some s →
      (calcTradeLevels ty price df sr).take_profit =
        some (price + (price - s) * 2)) := by
  obtain ⟨r, hl⟩ : ∃ r, df.rows.getLast? = some r := by
    cases hr : df.rows.getLast? with
    | none => exact absurd (List.getLast?_eq_none_iff.mp hr) hdf
    | some r => exact ⟨r, rfl⟩
  refine ⟨?_, ?_, ?_, ?_⟩
  · simp only [calcTradeLevels, hl]
  · intro s hs hs0
    simp only [calcTradeLevels, hl, if_pos hty, hs, hs0, if_true, ite_not]
    simp [hs0]
  · rintro (hs | hs)
    · simp only [calcTradeLevels, hl, if_pos hty, hs]
    · simp only [calcTradeLevels, hl, if_pos hty, hs]
      simp
  · intro s hstop
    simp only [calcTradeLevels, hl, if_pos hty] at hstop ⊢
    simp only [hstop]
    simp [risk_reward_ratio]

/-- C7 witness: BUY at price 100 with supports `[90, 95]` and ATR 2 gives
entry 100, stop-loss 95 (the nearest support below price), take-profit
`100 + (100 − 95) × 2 = 110`. -/
theorem tradeLevels_long_witness :
    (calcTradeLevels .BUY 100 ⟨["atr"], [fun _ => 2]⟩ ⟨[90, 95], []⟩).entry = 100 ∧
    (calcTradeLevels .BUY 100 ⟨["atr"], [fun _ => 2]⟩ ⟨[90, 95], []⟩).stop_loss =
      some 95 ∧
    (calcTradeLevels .BUY 100 ⟨["atr"], [fun _ => 2]⟩ ⟨[90, 95], []⟩).take_profit =
      some 110 := by
  have h := tradeLevels_long .BUY 100 ⟨["atr"], [fun _ => 2]⟩ ⟨[90, 95], []⟩
    (Or.inl rfl) (by simp)
  have hstop : (calcTradeLevels .BUY 100 ⟨["atr"], [fun _ => 2]⟩
      ⟨[90, 95], []⟩).stop_loss = some 95 :=
    h.2.1 95 (by decide) (by norm_num)
  have htp := h.2.2.2 95 hstop
  norm_num at htp
  exact ⟨h.1, hstop, htp⟩

/-! ## Claims about data preparation and prediction (ai_model.py) -/

/-- C6 counterexample: on the empty series that carries the required
feature columns (n = 0 < sequence_length + 1), `prepare_data` does NOT
return empty arrays: sklearn's `MinMaxScaler().fit_transform` raises
`ValueError` on a zero-sample array, and `prepare_data`'s `except` clause
re-raises it, so the call errors where the claim says it returns empty
arrays. -/
theorem prepareData_empty_series_counterexample :
    prepareData ["close"] 1 ⟨["close"], []⟩ =
      .error "Found array with 0 sample(s)" ∧
    (Frame.mk ["close"] []).rows.length < 1 + 1 ∧
    prepareData ["close"] 1 ⟨["close"], []⟩ ≠ .ok ([], []) := by
  have h := prepareData_empty ["close"] 1 ⟨["close"], []⟩ (by simp) rfl
  refine ⟨h, by norm_num, ?_⟩
  rw [h]
  intro hc
  exact Except.noConfusion hc

/-- C6 (amended): for a valid *nonempty* series (all required feature
columns present, at least one row), `prepare_data` returns exactly
`len(series) − sequence_length` windowed examples, each labelled one-hot
over exactly the 3 classes [BUY, SELL, HOLD]; and a nonempty series
shorter than `sequence_length + 1` yields empty arrays rather than an
error.  (On a zero-row series the min-max scaler raises, and
`prepare_data` re-raises.) -/
theorem prepareData_shape (feature_columns : List String)
    (sequence_length : ℕ) (f : Frame)
    (hcols : ∀ c ∈ feature_columns, c ∈ f.columns) (hne : f.rows ≠ []) :
    (∃ X y, prepareData feature_columns sequence_length f = .ok (X, y) ∧
      X.length = f.rows.length - sequence_length ∧
      y.length = f.rows.length - sequence_length ∧
      ∀ l ∈ y, l = [1, 0, 0] ∨ l = [0, 1, 0] ∨ l = [0, 0, 1]) ∧
    (f.rows.length < sequence_length + 1 →
      prepareData feature_columns sequence_length f = .ok ([], [])) := by
  have hA : feature_columns.all (fun c => c ∈ f.columns) = true := by
    simpa [List.all_eq_true] using hcols
  refine ⟨⟨_, _, prepareData_eq_of_all feature_columns sequence_length f hA hne,
    by simp, by simp, ?_⟩,
    prepareData_short feature_columns sequence_length f hA hne⟩
  intro l hl
  simp only [List.mem_map] at hl
  obtain ⟨j, _, rfl⟩ := hl
  exact makeTarget_cases _ _

/-- C6 witness: a one-row series with `sequence_length = 1` is shorter
than `sequence_length + 1` and yields empty arrays. -/
theorem prepareData_shape_witness :
    prepareData ["close"] 1 ⟨["close"], [fun _ => 5]⟩ = .ok ([], []) :=
  (prepareData_shape ["close"] 1 ⟨["close"], [fun _ => 5]⟩
    (by simp) (by simp)).2 (by norm_num)

/-- C3: `predict` never propagates a failure: whenever its try-block
fails, the result is the safe neutral record {HOLD, confidence 0,
probabilities {buy 0, sell 0, hold 1}}; in particular every series shorter
than `sequence_length + 1` rows yields the safe neutral record (for any
network state). -/
theorem predict_safe_fallback (net : List (List ℚ) → ℚ × ℚ × ℚ)
    (feature_columns : List String) (sequence_length : ℕ) (f : Frame) :
    (∀ e, predictCore net feature_columns sequence_length f = .error e →
      predict net feature_columns sequence_length f = safeNeutral) ∧
    (f.rows.length < sequence_length + 1 →
      predict net feature_columns sequence_length f = safeNeutral) := by
  constructor
  · intro e he
    simp [predict, he]
  · intro hshort
    by_cases hA : feature_columns.all (fun c => c ∈ f.columns) = true
    · by_cases hnil : f.rows = []
      · have herr := prepareData_empty feature_columns sequence_length f hA hnil
        simp only [predict, predictCore, herr]
        rfl
      · have h2 := prepareData_short feature_columns sequence_length f hA hnil hshort
        simp only [predict, predictCore, h2]
        rfl
    · have herr : prepareData feature_columns sequence_length f =
          .error "Missing features" := by
        simp only [prepareData]
        rw [if_neg]
        simpa using hA
      simp only [predict, predictCore, herr]
      rfl

/-- C3 witness: the fallback theorem applied to an empty series with
`sequence_length = 1` and an arbitrary network. -/
theorem predict_safe_fallback_witness :
    predict (fun _ => (0, 0, 0)) [] 1 ⟨[], []⟩ = safeNeutral :=
  (predict_safe_fallback (fun _ => (0, 0, 0)) [] 1 ⟨[], []⟩).2 (by norm_num)

/-- C5 counterexample: on the two-row series with closes `[−1, −1]`
(window `i = 0`, `sequence_length = 1`), the claimed biconditional
"label is SELL iff `close[i+L] < close[i+L−1] × 0.999`" fails: the
condition `−1 < −1 × 0.999 = −0.999` holds, yet the produced label is
`[1, 0, 0]` (BUY, since `−1 > −1 × 1.001 = −1.001` and the BUY branch is
tested first), not `[0, 1, 0]` (SELL). -/
theorem label_sell_iff_counterexample :
    labelAt ["close"] 1 ⟨["close"], [fun _ => -1, fun _ => -1]⟩ 0 = [1, 0, 0] ∧
    ((-1 : ℚ) < (-1) * (999/1000)) ∧
    ([(1 : ℚ), 0, 0] ≠ [0, 1, 0]) := by
  refine ⟨?_, by norm_num, by norm_num⟩
  have h := labelAt_eq ["close"] 1 ⟨["close"], [fun _ => -1, fun _ => -1]⟩ 0
    (by simp) (by norm_num)
  rw [h]
  norm_num [closesOf, ilocQ, makeTarget]

/-- C5 (amended): for every window `i` produced by data preparation on a
valid series, with `L = sequence_length ≥ 1`, `next = close[i+L]` and
`cur = close[i+L−1]`: the label is `[1,0,0]` (BUY) iff `next > cur×1.001`;
the label is `[0,1,0]` (SELL) iff `next < cur×0.999` AND not BUY (the BUY
branch takes precedence); the label is `[0,0,1]` (HOLD) otherwise; and
whenever `cur ≥ 0` (in particular for any genuine price series) the
claim's plain biconditional for SELL and the boundary facts hold: a ratio
of exactly 1.001 or exactly 0.999 labels HOLD. -/
theorem label_truth_table (feature_columns : List String)
    (sequence_length : ℕ) (f : Frame) (i : ℕ)
    (hL : 1 ≤ sequence_length)
    (hcols : ∀ c ∈ feature_columns, c ∈ f.columns)
    (hi : i < f.rows.length - sequence_length) :
    (labelAt feature_columns sequence_length f i = [1, 0, 0] ↔
      (closesOf f).getD (i + sequence_length) 0 >
        (closesOf f).getD (i + sequence_length - 1) 0 * (1001/1000)) ∧
    (labelAt feature_columns sequence_length f i = [0, 1, 0] ↔
      ((closesOf f).getD (i + sequence_length) 0 <
          (closesOf f).getD (i + sequence_length - 1) 0 * (999/1000) ∧
        ¬((closesOf f).getD (i + sequence_length) 0 >
          (closesOf f).getD (i + sequence_length - 1) 0 * (1001/1000)))) ∧
    (labelAt feature_columns sequence_length f i = [0, 0, 1] ↔
      (¬((closesOf f).getD (i + sequence_length) 0 >
          (closesOf f).getD (i + sequence_length - 1) 0 * (1001/1000)) ∧
        ¬((closesOf f).getD (i + sequence_length) 0 <
          (closesOf f).getD (i + sequence_length - 1) 0 * (999/1000)))) ∧
    (0 ≤ (closesOf f).getD (i + sequence_length - 1) 0 →
      ((labelAt feature_columns sequence_length f i = [0, 1, 0] ↔
          (closesOf f).getD (i + sequence_length) 0 <
            (closesOf f).getD (i + sequence_length - 1) 0 * (999/1000)) ∧
        ((closesOf f).getD (i + sequence_length) 0 =
            (closesOf f).getD (i + sequence_length - 1) 0 * (1001/1000) →
          labelAt feature_columns sequence_length f i = [0, 0, 1]) ∧
        ((closesOf f).getD (i + sequence_length) 0 =
            (closesOf f).getD (i + sequence_length - 1) 0 * (999/1000) →
          labelAt feature_columns sequence_length f i = [0, 0, 1]))) := by
  have hA : feature_columns.all (fun c => c ∈ f.columns) = true := by
    simpa [List.all_eq_true] using hcols
  have hlab := labelAt_eq feature_columns sequence_length f i hA hi
  have hidx := ilocQ_index (closesOf f) i sequence_length hL
  rw [hidx.1, hidx.2] at hlab
  rw [hlab]
  set a := (closesOf f).getD (i + sequence_length) 0 with ha
  set b := (closesOf f).getD (i + sequence_length - 1) 0 with hb
  obtain ⟨t1, t2, t3⟩ := makeTarget_spec a b
  refine ⟨t1, t2, t3, ?_⟩
  intro hbn
  have hle : b * (999/1000) ≤ b * (1001/1000) :=
    mul_le_mul_of_nonneg_left (by norm_num) hbn
  refine ⟨?_, ?_, ?_⟩
  · rw [t2]
    constructor
    · exact fun h => h.1
    · intro hlt
      refine ⟨hlt, fun hgt => ?_⟩
      linarith
  · intro heq
    rw [t3]
    refine ⟨?_, ?_⟩
    · rw [heq]
      exact lt_irrefl _
    · rw [heq]
      intro hc
      linarith
  · intro heq
    rw [t3]
    refine ⟨?_, ?_⟩
    · rw [heq]
      intro hc
      linarith
    · rw [heq]
      exact lt_irrefl _

/-- C5 witness: a flat two-close series (100, 100) with
`sequence_length = 1` sits inside the dead-zone and is labelled HOLD. -/
theorem label_truth_table_witness :
    labelAt ["close"] 1 ⟨["close"], [fun _ => 100, fun _ => 100]⟩ 0 =
      [0, 0, 1] := by
  have h := label_truth_table ["close"] 1
    ⟨["close"], [fun _ => 100, fun _ => 100]⟩ 0 (by norm_num) (by simp)
    (by norm_num)
  exact h.2.2.1.mpr (by norm_num [closesOf])

/-! ## Claim about model-version loading (ai_model.py) -/

/-- C4: code bug.  The failed-load path is not atomic: with
`lstm_model_v3.h5` present but `scaler_v3.npy` absent, starting from an
active in-memory state (model 10, scaler 20, version 1),
`load_specific_version(3)` raises — yet the in-memory state after the call
is (model 3, scaler 20, version 1): the model weights were replaced while
the scaler and version counter were not, corrupting the previously active
state.  (The version-not-found half of the claim does hold: when the model
file is absent the state is left untouched.) -/
theorem loadSpecificVersion_not_atomic :
    (loadSpecificVersion ⟨[3], []⟩ 3 ⟨10, 20, 1⟩).1.isOk = false ∧
    (loadSpecificVersion ⟨[3], []⟩ 3 ⟨10, 20, 1⟩).2 = ⟨3, 20, 1⟩ ∧
    (⟨3, 20, 1⟩ : ModelState) ≠ ⟨10, 20, 1⟩ ∧
    (loadSpecificVersion ⟨[3], []⟩ 7 ⟨10, 20, 1⟩).1.isOk = false ∧
    (loadSpecificVersion ⟨[3], []⟩ 7 ⟨10, 20, 1⟩).2 = ⟨10, 20, 1⟩ := by
  refine ⟨rfl, rfl, by decide, rfl, rfl⟩

/-! ## Claim about support/resistance detection (indicators.py) -/

/-- C8: the support/resistance detector partitions its level set by the
most recent close: every support level is strictly below the latest close,
every resistance level strictly above (a level equal to the close lands in
neither list), and the combined output is strictly sorted ascending —
hence deduplicated. -/
theorem detectSR_partition (w t : ℕ) (bars : List Bar) :
    (∀ s ∈ (detectSupportResistance w t bars).support, s < lastClose bars) ∧
    (∀ r ∈ (detectSupportResistance w t bars).resistance, lastClose bars < r) ∧
    ((detectSupportResistance w t bars).support ++
      (detectSupportResistance w t bars).resistance).Sorted (· < ·) := by
  unfold detectSupportResistance lastClose
  cases hc : (bars.map (fun b => b.close)).getLast? with
  | none => simp
  | some c =>
    rw [List.getLastD_eq_getLast?, hc]
    simp only [Option.getD_some]
    have hsorted := sortedDedup_sorted (detectLevels w t bars)
    refine ⟨?_, ?_, ?_⟩
    · intro s hs
      simpa using (List.mem_filter.mp hs).2
    · intro r hr
      simpa using (List.mem_filter.mp hr).2
    · rw [List.Sorted, List.pairwise_append]
      refine ⟨hsorted.filter _, hsorted.filter _, ?_⟩
      intro x hx y hy
      have hx' : x < c := by simpa using (List.mem_filter.mp hx).2
      have hy' : c < y := by simpa using (List.mem_filter.mp hy).2
      exact hx'.trans hy'

/-- C8 witness: on a concrete 3-bar series with window 1 and touch count
1, the detector returns support `[2]` and resistance `[10]` around the
last close 3; the partition theorem applied there yields `2 < 3 < 10`. -/
theorem detectSR_partition_witness :
    2 < lastClose [⟨5, 1, 3⟩, ⟨10, 2, 3⟩, ⟨5, 1, 3⟩] ∧
    lastClose [⟨5, 1, 3⟩, ⟨10, 2, 3⟩, ⟨5, 1, 3⟩] < 10 := by
  have h := detectSR_partition 1 1 [⟨5, 1, 3⟩, ⟨10, 2, 3⟩, ⟨5, 1, 3⟩]
  have hsup : (detectSupportResistance 1 1
      [⟨5, 1, 3⟩, ⟨10, 2, 3⟩, ⟨5, 1, 3⟩]).support = [2] := by
    norm_num [detectSupportResistance, sortedDedup, insertLevel, detectLevels,
      centeredSlice, touchCount, List.range', List.max?, List.min?, abs]
  have hres : (detectSupportResistance 1 1
      [⟨5, 1, 3⟩, ⟨10, 2, 3⟩, ⟨5, 1, 3⟩]).resistance = [10] := by
    norm_num [detectSupportResistance, sortedDedup, insertLevel, detectLevels,
      centeredSlice, touchCount, List.range', List.max?, List.min?, abs]
  exact ⟨h.1 2 (by rw [hsup]; exact List.mem_cons_self _ _),
    h.2.1 10 (by rw [hres]; exact List.mem_cons_self _ _)⟩

end NoxX
